import Mathlib

/-!
Shallow embedding of the lsdc2-discord-bot administrative scripts
(`src/scripts/*.py`).  Each Python script is a linear sequence of HTTP
calls against the Discord application-command REST API.  The embedding
models, for every script, the interactive inputs it reads, the sequence
of HTTP requests it issues (as a function of the list bodies returned by
its GET requests and of an oracle giving the responses to its DELETE
requests), and the lines it prints.  A small model of the remote
service, taken from the specification, lets us speak about the state of
the command list after a run.
-/

namespace LSDC2

/-- HTTP verbs used by the scripts. -/
inductive Method
  | GET
  | POST
  | PATCH
  | DELETE
deriving DecidableEq, Repr

/-- One entry of an "options" array in a command-registration payload,
as built by the scripts: an option-type code, a name, a description and
an optional "required" flag (absent keys are `none`). -/
structure CmdOption where
  type : Nat
  name : String
  description : String
  required : Option Bool
deriving DecidableEq, Repr

/-- A command-registration JSON payload as built by the scripts.  Every
key that some script may leave out of its dict literal is an `Option`,
with `none` for an absent key. -/
structure CmdPayload where
  name : String
  type : Option Nat
  description : String
  default_member_permissions : Option Nat
  dm_permission : Option Bool
  integration_types : Option (List Nat)
  contexts : Option (List Nat)
  options : Option (List CmdOption)
deriving DecidableEq, Repr

/-- A command as listed by the remote service: the fields the scripts
read are the assigned id (`cmd["id"]`) and the registration data
(in particular `cmd["name"]`). -/
structure Command where
  id : String
  payload : CmdPayload
deriving DecidableEq, Repr

/-- Body attached to a request: nothing (GET and DELETE), a
registration payload (POST), or a full listed command (the PATCH in
update_cmd.py sends the fetched `cmd` back). -/
inductive ReqBody
  | none
  | json (p : CmdPayload)
  | jsonCmd (c : Command)
deriving DecidableEq, Repr

/-- An HTTP request as issued by `requests.get/post/patch/delete`. -/
structure HttpRequest where
  method : Method
  url : String
  headers : List (String × String)
  body : ReqBody
deriving DecidableEq, Repr

/-- A response, as far as the scripts can observe one: a parsed list
body (GET), or an opaque success or error outcome. -/
inductive HttpResp
  | listResp (cmds : List Command)
  | okResp (content : String)
  | errResp (status : Nat) (content : String)
deriving DecidableEq, Repr

/-- The global-scope commands url
`https://discord.com/api/v10/applications/{app}/commands`. -/
def globalCommandsUrl (app : String) : String :=
  "https://discord.com/api/v10/applications/" ++ app ++ "/commands"

/-- The guild-scope commands url
`https://discord.com/api/v10/applications/{app}/guilds/{guild}/commands`. -/
def guildCommandsUrl (app guild : String) : String :=
  "https://discord.com/api/v10/applications/" ++ app ++ "/guilds/" ++ guild ++ "/commands"

/-- The headers dict every script builds:
`headers = {"Authorization": f"Bot {token}"}`. -/
def botHeaders (token : String) : List (String × String) :=
  [("Authorization", "Bot " ++ token)]

/-- One way a script obtains a top-level value before issuing requests:
an `input(msg)` prompt, a `getpass.getpass(prompt=msg)` no-echo prompt,
or a blank placeholder assignment (`app = ` with nothing after the
equal sign, as in create_global_cmd.py and update_cmd.py). -/
inductive CredRead
  | prompt (msg : String)
  | promptNoEcho (msg : String)
  | placeholder (varName : String)
deriving DecidableEq, Repr

/-- True when at least one input of the script is an interactive
prompt. -/
def hasPrompt (reads : List CredRead) : Bool :=
  reads.any fun r =>
    match r with
    | .prompt _ => true
    | .promptNoEcho _ => true
    | .placeholder _ => false

/-- True when the request mutates remote state (anything but GET). -/
def isMutation (r : HttpRequest) : Bool :=
  r.method != Method.GET

/-- ADMINISTRATOR_PERM = 0x0000000000000008 (defined identically in
several scripts). -/
def ADMINISTRATOR_PERM : Nat := 0x0000000000000008

/-- MANAGER_PERM = 0x0000000000000020 (defined identically in several
scripts). -/
def MANAGER_PERM : Nat := 0x0000000000000020

namespace bootsrap

/-- The inputs read by bootsrap.py lines 4-5:
app = input("Application id: "); token = getpass.getpass(prompt="Bot token: "). -/
def inputReads : List CredRead :=
  [CredRead.prompt "Application id: ", CredRead.promptNoEcho "Bot token: "]

/-- json_bootstrap dict of bootsrap.py lines 14-19. -/
def json_bootstrap : CmdPayload :=
  { name := "bootstrap"
  , type := some 1
  , description := "Register LSDC2 bot commands in your guild"
  , default_member_permissions := some ADMINISTRATOR_PERM
  , dm_permission := none
  , integration_types := none
  , contexts := none
  , options := none }

/-- json_registergame dict of bootsrap.py lines 23-41. -/
def json_registergame : CmdPayload :=
  { name := "register-game"
  , type := some 1
  , description := "Add a new game in the LSDC2 launcher"
  , default_member_permissions := some ADMINISTRATOR_PERM
  , dm_permission := some true
  , integration_types := none
  , contexts := none
  , options := some
      [ { type := 3
        , name := "spec-url"
        , description := "Url to LSDC2-compatible game description"
        , required := none }
      , { type := 5
        , name := "overwrite"
        , description := "If true, overwrite any existing spec"
        , required := none } ] }

/-- json_spinupgame dict of bootsrap.py lines 45-57 (note: no "type"
key). -/
def json_spinupgame : CmdPayload :=
  { name := "spinup"
  , type := none
  , description := "Start a new server instance"
  , default_member_permissions := some MANAGER_PERM
  , dm_permission := none
  , integration_types := none
  , contexts := none
  , options := some
      [ { type := 3
        , name := "game-type"
        , description := "Game type to start"
        , required := some true } ] }

/-- The requests issued by bootsrap.py: three POSTs to the global
commands url, in source order (lines 20, 42, 58). -/
def trace (app token : String) : List HttpRequest :=
  [ ⟨Method.POST, globalCommandsUrl app, botHeaders token, ReqBody.json json_bootstrap⟩
  , ⟨Method.POST, globalCommandsUrl app, botHeaders token, ReqBody.json json_registergame⟩
  , ⟨Method.POST, globalCommandsUrl app, botHeaders token, ReqBody.json json_spinupgame⟩ ]

end bootsrap

namespace create_global_commands

/-- The inputs read by create_global_commands.py lines 4-5. -/
def inputReads : List CredRead :=
  [CredRead.prompt "Application id: ", CredRead.promptNoEcho "Bot token: "]

/-- json_bootstrap dict of create_global_commands.py lines 20-27. -/
def json_bootstrap : CmdPayload :=
  { name := "bootstrap"
  , type := some 1
  , description := "Register LSDC2 bot commands in your guild"
  , default_member_permissions := some ADMINISTRATOR_PERM
  , dm_permission := none
  , integration_types := some [0]
  , contexts := some [0]
  , options := none }

/-- json_registergame dict of create_global_commands.py lines 31-50. -/
def json_registergame : CmdPayload :=
  { name := "register-game"
  , type := some 1
  , description := "Add a new game in the LSDC2 launcher"
  , default_member_permissions := some ADMINISTRATOR_PERM
  , dm_permission := none
  , integration_types := some [0]
  , contexts := some [1]
  , options := some
      [ { type := 3
        , name := "spec-url"
        , description := "Url to LSDC2-compatible game description"
        , required := none }
      , { type := 5
        , name := "overwrite"
        , description := "If true, overwrite any existing spec"
        , required := none } ] }

/-- The requests issued by create_global_commands.py: two POSTs to the
global commands url (lines 28, 51). -/
def trace (app token : String) : List HttpRequest :=
  [ ⟨Method.POST, globalCommandsUrl app, botHeaders token, ReqBody.json json_bootstrap⟩
  , ⟨Method.POST, globalCommandsUrl app, botHeaders token, ReqBody.json json_registergame⟩ ]

end create_global_commands

namespace create_global_cmd

/-- The inputs of create_global_cmd.py lines 4-5: two blank placeholder
assignments (app = ; token = ), no prompt at all. -/
def inputReads : List CredRead :=
  [CredRead.placeholder "app", CredRead.placeholder "token"]

/-- json_welcomeguild dict of create_global_cmd.py lines 21-28. -/
def json_welcomeguild : CmdPayload :=
  { name := "welcome-guild"
  , type := some 1
  , description := "Deploy LSDC2 bot commands, channels and roles in your guild"
  , default_member_permissions := some ADMINISTRATOR_PERM
  , dm_permission := none
  , integration_types := some [0]
  , contexts := some [0]
  , options := none }

/-- json_goodbyeguild dict of create_global_cmd.py lines 32-39. -/
def json_goodbyeguild : CmdPayload :=
  { name := "goodbye-guild"
  , type := some 1
  , description := "Remove everything related to LSDC2 bot from your guild"
  , default_member_permissions := some ADMINISTRATOR_PERM
  , dm_permission := none
  , integration_types := some [0]
  , contexts := some [0]
  , options := none }

/-- json_registergame dict of create_global_cmd.py lines 43-57. -/
def json_registergame : CmdPayload :=
  { name := "register-game"
  , type := some 1
  , description := "Add a new game in the LSDC2 launcher"
  , default_member_permissions := some ADMINISTRATOR_PERM
  , dm_permission := none
  , integration_types := some [0]
  , contexts := some [1]
  , options := some
      [ { type := 5
        , name := "overwrite"
        , description := "If true, overwrite any existing spec"
        , required := none } ] }

/-- json_registerenginetier dict of create_global_cmd.py lines 61-68. -/
def json_registerenginetier : CmdPayload :=
  { name := "register-engine-tier"
  , type := some 1
  , description := "Add/update a engine tier in the LSDC2 launcher"
  , default_member_permissions := some ADMINISTRATOR_PERM
  , dm_permission := none
  , integration_types := some [0]
  , contexts := some [1]
  , options := none }

/-- The requests issued by create_global_cmd.py: four POSTs to the
global commands url (lines 29, 40, 58, 69). -/
def trace (app token : String) : List HttpRequest :=
  [ ⟨Method.POST, globalCommandsUrl app, botHeaders token, ReqBody.json json_welcomeguild⟩
  , ⟨Method.POST, globalCommandsUrl app, botHeaders token, ReqBody.json json_goodbyeguild⟩
  , ⟨Method.POST, globalCommandsUrl app, botHeaders token, ReqBody.json json_registergame⟩
  , ⟨Method.POST, globalCommandsUrl app, botHeaders token, ReqBody.json json_registerenginetier⟩ ]

end create_global_cmd

namespace delete_global_cmd

/-- The inputs read by delete_global_cmd.py lines 4-5. -/
def inputReads : List CredRead :=
  [CredRead.prompt "Application id: ", CredRead.promptNoEcho "Bot token: "]

/-- The delete loop of delete_global_cmd.py lines 15-18: for each
listed command, print its name, build the per-command url and issue a
DELETE.  The response `r` of each DELETE is bound and never used, so
the loop goes on whatever it is; `resp i` is the response to the i-th
DELETE of the loop. -/
def deleteLoop (base token : String) : List Command → (Nat → HttpResp) → List HttpRequest × List String
  | [], _ => ([], [])
  | cmd :: rest, resp =>
    let _r := resp 0
    let (reqs, outs) := deleteLoop base token rest (fun i => resp (i + 1))
    ( ⟨Method.DELETE, base ++ "/" ++ cmd.id, botHeaders token, ReqBody.none⟩ :: reqs
    , ("Deleting command: " ++ cmd.payload.name) :: outs )

/-- The run of delete_global_cmd.py lines 11-18: GET the global list
(jbody is the parsed response), print its length, then the delete loop.
Returns the issued requests and the printed lines. -/
def run (app token : String) (jbody : List Command) (resp : Nat → HttpResp) :
    List HttpRequest × List String :=
  let url := globalCommandsUrl app
  let (reqs, outs) := deleteLoop url token jbody resp
  ( ⟨Method.GET, url, botHeaders token, ReqBody.none⟩ :: reqs
  , ("Number of global commands: " ++ toString jbody.length) :: outs )

end delete_global_cmd

namespace delete_all_commands

/-- The inputs read by delete_all_commands.py lines 4-6. -/
def inputReads : List CredRead :=
  [ CredRead.prompt "Application id: "
  , CredRead.prompt "Guild id: "
  , CredRead.promptNoEcho "Bot token: " ]

/-- One scope of delete_all_commands.py (lines 17-20 and 27-30): for
each listed command, print its name and issue a DELETE on the
per-command url; the DELETE response is bound to r and never used. -/
def deleteLoop (base token : String) : List Command → (Nat → HttpResp) → List HttpRequest × List String
  | [], _ => ([], [])
  | cmd :: rest, resp =>
    let _r := resp 0
    let (reqs, outs) := deleteLoop base token rest (fun i => resp (i + 1))
    ( ⟨Method.DELETE, base ++ "/" ++ cmd.id, botHeaders token, ReqBody.none⟩ :: reqs
    , ("Deleting command: " ++ cmd.payload.name) :: outs )

/-- The run of delete_all_commands.py lines 13-30: GET the global list,
print its length, delete each; then GET the guild list, print its
length, delete each.  gbody and gldbody are the parsed GET responses;
gresp and gldresp give the responses to the DELETEs of each loop. -/
def run (app guild token : String) (gbody gldbody : List Command)
    (gresp gldresp : Nat → HttpResp) : List HttpRequest × List String :=
  let gurl := globalCommandsUrl app
  let (greqs, gouts) := deleteLoop gurl token gbody gresp
  let gldurl := guildCommandsUrl app guild
  let (gldreqs, gldouts) := deleteLoop gldurl token gldbody gldresp
  ( ⟨Method.GET, gurl, botHeaders token, ReqBody.none⟩ :: greqs
      ++ ⟨Method.GET, gldurl, botHeaders token, ReqBody.none⟩ :: gldreqs
  , ("Number of global commands: " ++ toString gbody.length) :: gouts
      ++ ("Number of guilds commands: " ++ toString gldbody.length) :: gldouts )

end delete_all_commands

namespace cleanup

/-- The inputs read by cleanup.py lines 4-6. -/
def inputReads : List CredRead :=
  [ CredRead.prompt "Application id: "
  , CredRead.prompt "Guild id: "
  , CredRead.promptNoEcho "Bot token: " ]

/-- One scope of cleanup.py (lines 15-17 and 24-26): for each listed
command, issue a DELETE on the per-command url (no per-command print);
the DELETE response is bound to r and never used. -/
def deleteLoop (base token : String) : List Command → (Nat → HttpResp) → List HttpRequest
  | [], _ => []
  | cmd :: rest, resp =>
    let _r := resp 0
    ⟨Method.DELETE, base ++ "/" ++ cmd.id, botHeaders token, ReqBody.none⟩
      :: deleteLoop base token rest (fun i => resp (i + 1))

/-- The run of cleanup.py lines 11-26: GET the global list, print its
length, delete each; then GET the guild list, print its length, delete
each. -/
def run (app guild token : String) (gbody gldbody : List Command)
    (gresp gldresp : Nat → HttpResp) : List HttpRequest × List String :=
  let gurl := globalCommandsUrl app
  let gldurl := guildCommandsUrl app guild
  ( ⟨Method.GET, gurl, botHeaders token, ReqBody.none⟩ :: deleteLoop gurl token gbody gresp
      ++ ⟨Method.GET, gldurl, botHeaders token, ReqBody.none⟩ :: deleteLoop gldurl token gldbody gldresp
  , [ "Number of global commands: " ++ toString gbody.length
    , "Number of guilds commands: " ++ toString gldbody.length ] )

end cleanup

namespace update_cmd

/-- The inputs of update_cmd.py lines 3-6: four blank placeholder
assignments (app = ; token = ; guild_id = ; cmd_name = ), no prompt. -/
def inputReads : List CredRead :=
  [ CredRead.placeholder "app"
  , CredRead.placeholder "token"
  , CredRead.placeholder "guild_id"
  , CredRead.placeholder "cmd_name" ]

/-- Outcome of the loop of update_cmd.py lines 29-35: either a PATCH
was issued for the first listed command whose name equals cmd_name
(then the loop breaks), or the loop fell through without a match. -/
inductive LoopResult
  | patched (c : Command)
  | noMatch
deriving DecidableEq, Repr

/-- The first listed command whose "name" equals cmd_name (the
for-loop with break of update_cmd.py lines 29-35). -/
def result (jbody : List Command) (cmd_name : String) : LoopResult :=
  match jbody.find? (fun c => c.payload.name == cmd_name) with
  | some c => LoopResult.patched c
  | Option.none => LoopResult.noMatch

/-- The requests issued by update_cmd.py lines 26-35: a GET of the
guild list, then, when a listed command matches cmd_name, one PATCH of
the per-command url whose body is the fetched command itself. -/
def trace (app token guild_id cmd_name : String) (jbody : List Command) : List HttpRequest :=
  ⟨Method.GET, guildCommandsUrl app guild_id, botHeaders token, ReqBody.none⟩ ::
    match jbody.find? (fun c => c.payload.name == cmd_name) with
    | some c =>
        [⟨Method.PATCH, guildCommandsUrl app guild_id ++ "/" ++ c.id, botHeaders token,
          ReqBody.jsonCmd c⟩]
    | Option.none => []

/-- The lines printed by update_cmd.py: one "UPDATE result" line when a
PATCH was issued (its response is rendered opaquely), nothing when the
loop found no match. -/
def prints (cmd_name : String) (jbody : List Command) (patchResp : HttpResp) : List String :=
  match jbody.find? (fun c => c.payload.name == cmd_name) with
  | some _ =>
      match patchResp with
      | HttpResp.listResp _ => ["UPDATE result: "]
      | HttpResp.okResp content => ["UPDATE result: " ++ content]
      | HttpResp.errResp _ content => ["UPDATE result: " ++ content]
  | Option.none => []

end update_cmd

namespace Remote

/-- Modelled from the spec: the remote service holds, per scope, a list
of commands; a scope's state is what listCommands returns for it.
Membership of an id in a scope's list. -/
def hasId (cmds : List Command) (i : String) : Bool :=
  cmds.any fun c => c.id == i

/-- Modelled from the spec: deleteCommand removes the command with the
given id from the scope's list. -/
def deleteById (cmds : List Command) (i : String) : List Command :=
  cmds.filter fun c => !(c.id == i)

/-- Modelled from the spec: applying a sequence of delete requests to a
scope's list.  A delete of a present id removes it and counts as a
success; a delete of an absent id is a NotFoundError, leaves the list
unchanged, and counts as a failure.  Returns the final list and the
(success, failure) counts. -/
def applyDeletes : List Command → List String → List Command × Nat × Nat
  | cmds, [] => (cmds, 0, 0)
  | cmds, i :: rest =>
    if hasId cmds i then
      let (fin, s, f) := applyDeletes (deleteById cmds i) rest
      (fin, s + 1, f)
    else
      let (fin, s, f) := applyDeletes cmds rest
      (fin, s, f + 1)

/-- Modelled from the spec: createCommand appends the registered
payload to the scope's list under a service-assigned fresh id, and
listCommands then returns the updated list. -/
def createCommand (cmds : List Command) (p : CmdPayload) (fresh : String) : List Command :=
  cmds ++ [⟨fresh, p⟩]

end Remote

/-- The ids a delete loop tries to DELETE, in loop order: the id of
each fetched command. -/
def deleteIds (jbody : List Command) : List String :=
  jbody.map fun c => c.id

/-- The DELETE request a delete loop builds for one listed command. -/
def mkDelete (base token : String) (c : Command) : HttpRequest :=
  ⟨Method.DELETE, base ++ "/" ++ c.id, botHeaders token, ReqBody.none⟩

/-- The per-command line the verbose delete loops print. -/
def deletingLine (c : Command) : String :=
  "Deleting command: " ++ c.payload.name

/-- The GET request a script issues on a commands url. -/
def getReq (url token : String) : HttpRequest :=
  ⟨Method.GET, url, botHeaders token, ReqBody.none⟩

/-- A listed command with the given id and name, all other payload
fields arbitrary but fixed (scenario data). -/
def mkListed (i nm : String) : Command :=
  ⟨i, ⟨nm, some 1, "", Option.none, Option.none, Option.none, Option.none, Option.none⟩⟩

/-- A delete-response oracle that always succeeds (scenario data). -/
def okOracle : Nat → HttpResp := fun _ => HttpResp.okResp ""

/-- OPT_STRING = 3 (option-type code for string options, as defined in
several scripts). -/
def OPT_STRING : Nat := 3

/-- True when the request's headers are exactly the Bot-token
Authorization dict the scripts build. -/
def authOk (token : String) (r : HttpRequest) : Bool :=
  r.headers == botHeaders token

/-- True when the request's verb and url follow the documented shape,
given the scope urls and the fetched bodies: GET and POST on a base
commands url (all the creates are global), DELETE and PATCH on a base
url suffixed by the slash and the id of a fetched command. -/
def urlCheck (app guild : String) (gbody gldbody : List Command) (r : HttpRequest) : Bool :=
  match r.method with
  | Method.GET => r.url == globalCommandsUrl app || r.url == guildCommandsUrl app guild
  | Method.POST => r.url == globalCommandsUrl app
  | Method.DELETE =>
      (gbody.map fun c => globalCommandsUrl app ++ "/" ++ c.id).contains r.url
        || (gldbody.map fun c => guildCommandsUrl app guild ++ "/" ++ c.id).contains r.url
  | Method.PATCH =>
      (gldbody.map fun c => guildCommandsUrl app guild ++ "/" ++ c.id).contains r.url

/-- True when the inputs are an application-id prompt, optionally a
guild-id prompt, then a no-echo token prompt, with the messages the
scripts use. -/
def promptsAppOptGuildToken : List CredRead → Bool
  | [CredRead.prompt a, CredRead.promptNoEcho t] =>
      a == "Application id: " && t == "Bot token: "
  | [CredRead.prompt a, CredRead.prompt g, CredRead.promptNoEcho t] =>
      a == "Application id: " && g == "Guild id: " && t == "Bot token: "
  | _ => false

/-- Scenario data: a stale global fetch of two commands, of which the
second was concurrently removed on the remote before the deletes. -/
def staleFetched2 : List Command := [mkListed "1" "alpha", mkListed "2" "beta"]

/-- Scenario data: the remote global list behind staleFetched2. -/
def staleRemote1 : List Command := [mkListed "1" "alpha"]

/-- Scenario data: delete responses for staleFetched2 — the second
DELETE answers 404, the rest succeed. -/
def staleResp2 : Nat → HttpResp := fun i =>
  if i == 1 then HttpResp.errResp 404 "Unknown application command" else HttpResp.okResp ""

/-- Scenario data: a guild fetch of three commands, of which the second
was concurrently removed on the remote before the deletes. -/
def guildFetched3 : List Command :=
  [mkListed "1" "alpha", mkListed "2" "beta", mkListed "3" "gamma"]

/-- Scenario data: the remote guild list behind guildFetched3. -/
def guildRemote2 : List Command := [mkListed "1" "alpha", mkListed "3" "gamma"]

/-- Scenario data: delete responses for guildFetched3 — the second
DELETE answers 404, the rest succeed. -/
def guildResp3 : Nat → HttpResp := fun i =>
  if i == 1 then HttpResp.errResp 404 "Unknown application command" else HttpResp.okResp ""

/-- The remote global list after a run of bootsrap.py against an empty
scope, with service-assigned ids "1", "2", "3" (remote modelled from
the spec). -/
def bootsrapRemote : List Command :=
  Remote.createCommand
    (Remote.createCommand
      (Remote.createCommand [] bootsrap.json_bootstrap "1")
      bootsrap.json_registergame "2")
    bootsrap.json_spinupgame "3"

/-- The delete loop of delete_global_cmd.py issues exactly the DELETE
requests of the fetched list, in order, and prints one line per
command, for any assignment of responses to the DELETEs. -/
theorem delete_global_cmd_deleteLoop_eq (base token : String) (jbody : List Command)
    (resp : Nat → HttpResp) :
    delete_global_cmd.deleteLoop base token jbody resp
      = (jbody.map (mkDelete base token), jbody.map deletingLine) := by
  induction jbody generalizing resp with
  | nil => rfl
  | cons cmd rest ih =>
      simp [delete_global_cmd.deleteLoop, ih, mkDelete, deletingLine]

/-- The delete loops of delete_all_commands.py issue exactly the DELETE
requests of the fetched list, in order, and print one line per command,
for any assignment of responses to the DELETEs. -/
theorem delete_all_commands_deleteLoop_eq (base token : String) (jbody : List Command)
    (resp : Nat → HttpResp) :
    delete_all_commands.deleteLoop base token jbody resp
      = (jbody.map (mkDelete base token), jbody.map deletingLine) := by
  induction jbody generalizing resp with
  | nil => rfl
  | cons cmd rest ih =>
      simp [delete_all_commands.deleteLoop, ih, mkDelete, deletingLine]

/-- The delete loops of cleanup.py issue exactly the DELETE requests of
the fetched list, in order, for any assignment of responses to the
DELETEs. -/
theorem cleanup_deleteLoop_eq (base token : String) (jbody : List Command)
    (resp : Nat → HttpResp) :
    cleanup.deleteLoop base token jbody resp = jbody.map (mkDelete base token) := by
  induction jbody generalizing resp with
  | nil => rfl
  | cons cmd rest ih =>
      simp [cleanup.deleteLoop, ih, mkDelete]

/-- C3: on a scope whose list request returns an empty sequence, each
delete-all script issues only the GET requests (no DELETE at all),
reports a count of 0 for the empty scope, and completes without any
error, whatever the delete-response oracles would have answered. -/
theorem C3_empty_scope_zero_deletes (app guild token : String)
    (r1 r2 r3 r4 r5 : Nat → HttpResp) :
    delete_global_cmd.run app token [] r1
      = ([getReq (globalCommandsUrl app) token], ["Number of global commands: 0"])
    ∧ delete_all_commands.run app guild token [] [] r2 r3
      = ([getReq (globalCommandsUrl app) token, getReq (guildCommandsUrl app guild) token],
          ["Number of global commands: 0", "Number of guilds commands: 0"])
    ∧ cleanup.run app guild token [] [] r4 r5
      = ([getReq (globalCommandsUrl app) token, getReq (guildCommandsUrl app guild) token],
          ["Number of global commands: 0", "Number of guilds commands: 0"]) :=
  ⟨rfl, rfl, rfl⟩

/-- C9: the payload bootsrap.py builds for the command named "spinup"
has exactly one option, named "game-type", of string option-type, with
required = true; the script's last request POSTs exactly that payload
to the global commands url, and the modelled remote global list after
the run holds exactly one entry named "spinup", carrying that
payload. -/
theorem C9_spinup_registration :
    bootsrap.json_spinupgame.options
      = some [⟨OPT_STRING, "game-type", "Game type to start", some true⟩]
    ∧ (bootsrap.trace "a" "t").getLast?
      = some ⟨Method.POST, globalCommandsUrl "a", botHeaders "t",
          ReqBody.json bootsrap.json_spinupgame⟩
    ∧ bootsrapRemote.filter (fun c => c.payload.name == "spinup")
      = [⟨"3", bootsrap.json_spinupgame⟩] :=
  ⟨rfl, rfl, rfl⟩

/-- C6 counterexample: not every script prompts for its credentials —
create_global_cmd.py and update_cmd.py contain blank placeholder
assignments and issue no prompt at all. -/
theorem C6_counterexample :
    hasPrompt create_global_cmd.inputReads = false
    ∧ hasPrompt update_cmd.inputReads = false :=
  ⟨rfl, rfl⟩

/-- C6 amended: five of the seven scripts prompt for an application id,
optionally a guild id, and a token read without echo; the remaining two
(create_global_cmd.py and update_cmd.py) hold blank placeholder
assignments for their credentials and prompt for nothing. -/
theorem C6_amended_prompting :
    promptsAppOptGuildToken bootsrap.inputReads = true
    ∧ promptsAppOptGuildToken create_global_commands.inputReads = true
    ∧ promptsAppOptGuildToken delete_global_cmd.inputReads = true
    ∧ promptsAppOptGuildToken delete_all_commands.inputReads = true
    ∧ promptsAppOptGuildToken cleanup.inputReads = true
    ∧ create_global_cmd.inputReads
      = [CredRead.placeholder "app", CredRead.placeholder "token"]
    ∧ update_cmd.inputReads
      = [CredRead.placeholder "app", CredRead.placeholder "token",
          CredRead.placeholder "guild_id", CredRead.placeholder "cmd_name"]
    ∧ hasPrompt create_global_cmd.inputReads = false
    ∧ hasPrompt update_cmd.inputReads = false :=
  ⟨rfl, rfl, rfl, rfl, rfl, rfl, rfl, rfl, rfl⟩

/-- C5 counterexample: bootsrap.py mutates the global scope (it issues
POSTs) without any preceding list request — its trace holds no GET at
all — so it is false that every script re-fetches the command list
before mutating. -/
theorem C5_counterexample :
    (bootsrap.trace "a" "t").filter (fun r => r.method == Method.GET) = []
    ∧ (bootsrap.trace "a" "t").any isMutation = true :=
  ⟨rfl, rfl⟩

/-- C5 amended: the delete and update scripts fetch first — their
traces open with the GET of the scope they act on, and each scope's
deletes follow that scope's GET — while the three create scripts
(bootsrap.py, create_global_cmd.py, create_global_commands.py) issue
only mutating POSTs, with no list request anywhere in their traces. -/
theorem C5_amended_fetch_before_mutate (app guild token cmd_name : String)
    (gbody gldbody jbody : List Command) (r1 r2 r3 r4 r5 : Nat → HttpResp) :
    (delete_global_cmd.run app token gbody r1).1
      = getReq (globalCommandsUrl app) token
          :: gbody.map (mkDelete (globalCommandsUrl app) token)
    ∧ (delete_all_commands.run app guild token gbody gldbody r2 r3).1
      = getReq (globalCommandsUrl app) token
          :: gbody.map (mkDelete (globalCommandsUrl app) token)
          ++ getReq (guildCommandsUrl app guild) token
          :: gldbody.map (mkDelete (guildCommandsUrl app guild) token)
    ∧ (cleanup.run app guild token gbody gldbody r4 r5).1
      = getReq (globalCommandsUrl app) token
          :: gbody.map (mkDelete (globalCommandsUrl app) token)
          ++ getReq (guildCommandsUrl app guild) token
          :: gldbody.map (mkDelete (guildCommandsUrl app guild) token)
    ∧ (update_cmd.trace app token guild cmd_name jbody).head?
      = some (getReq (guildCommandsUrl app guild) token)
    ∧ (bootsrap.trace app token).filter (fun r => r.method == Method.GET) = []
    ∧ (bootsrap.trace app token).all isMutation = true
    ∧ (create_global_cmd.trace app token).filter (fun r => r.method == Method.GET) = []
    ∧ (create_global_cmd.trace app token).all isMutation = true
    ∧ (create_global_commands.trace app token).filter (fun r => r.method == Method.GET) = []
    ∧ (create_global_commands.trace app token).all isMutation = true := by
  refine ⟨?_, ?_, ?_, ?_, rfl, rfl, rfl, rfl, rfl, rfl⟩
  · simp [delete_global_cmd.run, delete_global_cmd_deleteLoop_eq, getReq]
  · simp [delete_all_commands.run, delete_all_commands_deleteLoop_eq, getReq]
  · simp [cleanup.run, cleanup_deleteLoop_eq, getReq]
  · simp [update_cmd.trace, getReq]

/-- C8: every request of every script carries exactly the headers dict
with the Authorization key holding the token with the Bot prefix, for
any inputs, fetched bodies and delete-response oracles. -/
theorem C8_authorization_header (app guild token cmd_name : String)
    (gbody gldbody jbody : List Command) (r1 r2 r3 r4 r5 : Nat → HttpResp) :
    (bootsrap.trace app token).all (authOk token) = true
    ∧ (create_global_cmd.trace app token).all (authOk token) = true
    ∧ (create_global_commands.trace app token).all (authOk token) = true
    ∧ ((delete_global_cmd.run app token gbody r1).1.all (authOk token) = true)
    ∧ ((delete_all_commands.run app guild token gbody gldbody r2 r3).1.all (authOk token) = true)
    ∧ ((cleanup.run app guild token gbody gldbody r4 r5).1.all (authOk token) = true)
    ∧ (update_cmd.trace app token guild cmd_name jbody).all (authOk token) = true := by
  refine ⟨?_, ?_, ?_, ?_, ?_, ?_, ?_⟩
  · simp [bootsrap.trace, authOk]
  · simp [create_global_cmd.trace, authOk]
  · simp [create_global_commands.trace, authOk]
  · simp [delete_global_cmd.run, delete_global_cmd_deleteLoop_eq, authOk, mkDelete,
      List.all_map, Function.comp]
  · simp [delete_all_commands.run, delete_all_commands_deleteLoop_eq, authOk, mkDelete,
      List.all_append, List.all_map, Function.comp]
  · simp [cleanup.run, cleanup_deleteLoop_eq, authOk, mkDelete,
      List.all_append, List.all_map, Function.comp]
  · cases h : jbody.find? (fun c => c.payload.name == cmd_name) with
    | none => simp [update_cmd.trace, h, authOk]
    | some c => simp [update_cmd.trace, h, authOk]

/-- Helper: mapping then asking for the image of a member succeeds. -/
theorem contains_map_of_mem {α β : Type} [BEq β] [LawfulBEq β] (f : α → β)
    {l : List α} {a : α} (h : a ∈ l) : (l.map f).contains (f a) = true := by
  have : f a ∈ l.map f := List.mem_map_of_mem f h
  simpa [List.contains, List.elem_iff] using this

/-- Helper: every DELETE a global delete loop builds passes the url
check. -/
theorem urlCheck_global_delete (app guild token : String) (gbody gldbody : List Command) :
    ∀ r ∈ gbody.map (mkDelete (globalCommandsUrl app) token),
      urlCheck app guild gbody gldbody r = true := by
  intro r hr
  rcases List.mem_map.1 hr with ⟨c, hc, rfl⟩
  simp only [urlCheck, mkDelete, Bool.or_eq_true]
  exact Or.inl (contains_map_of_mem _ hc)

/-- Helper: every DELETE a guild delete loop builds passes the url
check. -/
theorem urlCheck_guild_delete (app guild token : String) (gbody gldbody : List Command) :
    ∀ r ∈ gldbody.map (mkDelete (guildCommandsUrl app guild) token),
      urlCheck app guild gbody gldbody r = true := by
  intro r hr
  rcases List.mem_map.1 hr with ⟨c, hc, rfl⟩
  simp only [urlCheck, mkDelete, Bool.or_eq_true]
  exact Or.inr (contains_map_of_mem _ hc)

/-- C7: every request of every script follows the documented url and
verb shape — GETs and POSTs hit a base commands url (global
applications commands, or guild commands for the guild scope), and
every DELETE and PATCH hits the base url of its scope suffixed by a
slash and the id of a command fetched for that scope. -/
theorem C7_request_urls (app guild token cmd_name : String)
    (gbody gldbody jbody : List Command) (r1 r2 r3 r4 r5 : Nat → HttpResp) :
    (bootsrap.trace app token).all (urlCheck app guild [] []) = true
    ∧ (create_global_cmd.trace app token).all (urlCheck app guild [] []) = true
    ∧ (create_global_commands.trace app token).all (urlCheck app guild [] []) = true
    ∧ ((delete_global_cmd.run app token gbody r1).1.all (urlCheck app guild gbody []) = true)
    ∧ ((delete_all_commands.run app guild token gbody gldbody r2 r3).1.all
        (urlCheck app guild gbody gldbody) = true)
    ∧ ((cleanup.run app guild token gbody gldbody r4 r5).1.all
        (urlCheck app guild gbody gldbody) = true)
    ∧ (update_cmd.trace app token guild cmd_name jbody).all (urlCheck app guild [] jbody)
      = true := by
  refine ⟨?_, ?_, ?_, ?_, ?_, ?_, ?_⟩
  · simp [bootsrap.trace, urlCheck]
  · simp [create_global_cmd.trace, urlCheck]
  · simp [create_global_commands.trace, urlCheck]
  · rw [List.all_eq_true]
    intro r hr
    rw [show (delete_global_cmd.run app token gbody r1).1
        = getReq (globalCommandsUrl app) token :: gbody.map (mkDelete (globalCommandsUrl app) token)
      from by simp [delete_global_cmd.run, delete_global_cmd_deleteLoop_eq, getReq]] at hr
    rcases List.mem_cons.1 hr with h | h
    · subst h; simp [urlCheck, getReq]
    · exact urlCheck_global_delete app guild token gbody [] r h
  · rw [List.all_eq_true]
    intro r hr
    rw [show (delete_all_commands.run app guild token gbody gldbody r2 r3).1
        = getReq (globalCommandsUrl app) token :: gbody.map (mkDelete (globalCommandsUrl app) token)
            ++ getReq (guildCommandsUrl app guild) token
            :: gldbody.map (mkDelete (guildCommandsUrl app guild) token)
      from by simp [delete_all_commands.run, delete_all_commands_deleteLoop_eq, getReq]] at hr
    rcases List.mem_append.1 hr with h | h
    · rcases List.mem_cons.1 h with h | h
      · subst h; simp [urlCheck, getReq]
      · exact urlCheck_global_delete app guild token gbody gldbody r h
    · rcases List.mem_cons.1 h with h | h
      · subst h; simp [urlCheck, getReq]
      · exact urlCheck_guild_delete app guild token gbody gldbody r h
  · rw [List.all_eq_true]
    intro r hr
    rw [show (cleanup.run app guild token gbody gldbody r4 r5).1
        = getReq (globalCommandsUrl app) token :: gbody.map (mkDelete (globalCommandsUrl app) token)
            ++ getReq (guildCommandsUrl app guild) token
            :: gldbody.map (mkDelete (guildCommandsUrl app guild) token)
      from by simp [cleanup.run, cleanup_deleteLoop_eq, getReq]] at hr
    rcases List.mem_append.1 hr with h | h
    · rcases List.mem_cons.1 h with h | h
      · subst h; simp [urlCheck, getReq]
      · exact urlCheck_global_delete app guild token gbody gldbody r h
    · rcases List.mem_cons.1 h with h | h
      · subst h; simp [urlCheck, getReq]
      · exact urlCheck_guild_delete app guild token gbody gldbody r h
  · rw [List.all_eq_true]
    intro r hr
    cases hf : jbody.find? (fun c => c.payload.name == cmd_name) with
    | none =>
        rw [update_cmd.trace, hf] at hr
        rcases List.mem_cons.1 hr with h | h
        · subst h; simp [urlCheck]
        · simp at h
    | some c =>
        rw [update_cmd.trace, hf] at hr
        rcases List.mem_cons.1 hr with h | h
        · subst h; simp [urlCheck]
        · have hc : c ∈ jbody := List.mem_of_find?_eq_some hf
          rcases List.mem_singleton.1 h with rfl
          simp only [urlCheck]
          exact contains_map_of_mem (fun c => guildCommandsUrl app guild ++ "/" ++ c.id) hc

/-- Helper: a delete loop's requests all mutate, so filtering the
mutations out of them keeps them all. -/
theorem filter_mkDelete (base token : String) (body : List Command) :
    (body.map (mkDelete base token)).filter isMutation = body.map (mkDelete base token) := by
  rw [List.filter_eq_self]
  intro r hr
  rcases List.mem_map.1 hr with ⟨c, hc, rfl⟩
  rfl

/-- C1 counterexample: a run of cleanup.py over a stale global fetch of
2 commands of which one delete fails reports only the pre-delete listed
count 2, which equals neither the success count (1) nor the failure
count (1) — the scripts report no count of successful and failed
deletions. -/
theorem C1_counterexample :
    (cleanup.run "a" "g" "t" staleFetched2 [] staleResp2 okOracle).2
      = ["Number of global commands: 2", "Number of guilds commands: 0"]
    ∧ Remote.applyDeletes staleRemote1 (deleteIds staleFetched2) = ([], 1, 1)
    ∧ staleFetched2.length ≠ (Remote.applyDeletes staleRemote1 (deleteIds staleFetched2)).2.1
    ∧ staleFetched2.length ≠ (Remote.applyDeletes staleRemote1 (deleteIds staleFetched2)).2.2 := by
  refine ⟨rfl, by decide, by decide, by decide⟩

/-- C1 amended: for every scope, delete_all_commands.py and cleanup.py
first issue the scope's list GET, then one DELETE per listed command in
list order; they continue past individual delete errors — the whole run
is the same function of the fetched lists whatever the delete responses
are — and the only count they report per scope is the length of the
fetched list, not a success/failure count. -/
theorem C1_amended_list_then_delete_each (app guild token : String)
    (gbody gldbody : List Command) (gr gldr gr2 gldr2 : Nat → HttpResp) :
    (delete_all_commands.run app guild token gbody gldbody gr gldr).1
      = getReq (globalCommandsUrl app) token
          :: gbody.map (mkDelete (globalCommandsUrl app) token)
          ++ getReq (guildCommandsUrl app guild) token
          :: gldbody.map (mkDelete (guildCommandsUrl app guild) token)
    ∧ delete_all_commands.run app guild token gbody gldbody gr gldr
      = delete_all_commands.run app guild token gbody gldbody gr2 gldr2
    ∧ (delete_all_commands.run app guild token gbody gldbody gr gldr).2
      = ("Number of global commands: " ++ toString gbody.length) :: gbody.map deletingLine
          ++ ("Number of guilds commands: " ++ toString gldbody.length)
          :: gldbody.map deletingLine
    ∧ (cleanup.run app guild token gbody gldbody gr gldr).1
      = getReq (globalCommandsUrl app) token
          :: gbody.map (mkDelete (globalCommandsUrl app) token)
          ++ getReq (guildCommandsUrl app guild) token
          :: gldbody.map (mkDelete (guildCommandsUrl app guild) token)
    ∧ cleanup.run app guild token gbody gldbody gr gldr
      = cleanup.run app guild token gbody gldbody gr2 gldr2
    ∧ (cleanup.run app guild token gbody gldbody gr gldr).2
      = [ "Number of global commands: " ++ toString gbody.length
        , "Number of guilds commands: " ++ toString gldbody.length ] := by
  refine ⟨?_, ?_, ?_, ?_, ?_, rfl⟩
  · simp [delete_all_commands.run, delete_all_commands_deleteLoop_eq, getReq]
  · simp [delete_all_commands.run, delete_all_commands_deleteLoop_eq]
  · simp [delete_all_commands.run, delete_all_commands_deleteLoop_eq]
  · simp [cleanup.run, cleanup_deleteLoop_eq, getReq]
  · simp [cleanup.run, cleanup_deleteLoop_eq]

/-- C2 counterexample: on the guild "123" scenario — 3 fetched
commands, the 2nd concurrently removed so its delete fails — the script
does not report 2 succeeded and 1 failed: its full output is the
pre-delete listed count 3 and one line per command name, and the listed
count differs from the success count 2 of the delete sequence. -/
theorem C2_counterexample :
    (delete_all_commands.run "a" "123" "t" [] guildFetched3 okOracle guildResp3).2
      = [ "Number of global commands: 0"
        , "Number of guilds commands: 3"
        , "Deleting command: alpha"
        , "Deleting command: beta"
        , "Deleting command: gamma" ]
    ∧ Remote.applyDeletes guildRemote2 (deleteIds guildFetched3) = ([], 2, 1)
    ∧ guildFetched3.length
      ≠ (Remote.applyDeletes guildRemote2 (deleteIds guildFetched3)).2.1 := by
  refine ⟨rfl, by decide, by decide⟩

/-- C2 amended: on the guild "123" scenario with 3 fetched commands
whose 2nd was already removed concurrently, the script issues all 3
DELETEs in order and continues past the failed 2nd one; on the modelled
remote this yields 2 successes and 1 failure and a final list holding
neither of the 2 successfully deleted ids (it is empty); the script
itself reports only the pre-delete listed count 3 and per-command
lines, no success/failure count. -/
theorem C2_amended_scenario :
    (delete_all_commands.run "a" "123" "t" [] guildFetched3 okOracle guildResp3).1
      = [ getReq (globalCommandsUrl "a") "t"
        , getReq (guildCommandsUrl "a" "123") "t"
        , mkDelete (guildCommandsUrl "a" "123") "t" (mkListed "1" "alpha")
        , mkDelete (guildCommandsUrl "a" "123") "t" (mkListed "2" "beta")
        , mkDelete (guildCommandsUrl "a" "123") "t" (mkListed "3" "gamma") ]
    ∧ Remote.applyDeletes guildRemote2 (deleteIds guildFetched3) = ([], 2, 1)
    ∧ Remote.hasId (Remote.applyDeletes guildRemote2 (deleteIds guildFetched3)).1 "1" = false
    ∧ Remote.hasId (Remote.applyDeletes guildRemote2 (deleteIds guildFetched3)).1 "3" = false
    ∧ (delete_all_commands.run "a" "123" "t" [] guildFetched3 okOracle guildResp3).2
      = [ "Number of global commands: 0"
        , "Number of guilds commands: 3"
        , "Deleting command: alpha"
        , "Deleting command: beta"
        , "Deleting command: gamma" ] := by
  refine ⟨rfl, by decide, by decide, by decide, rfl⟩

/-- C4 counterexample: running the loop of update_cmd.py with one
fetched command named "foo" and a target name "bar" that matches
nothing, the run does not fail with NotFoundError: it falls through
silently (result noMatch), prints nothing, and issues nothing beyond
the list GET. -/
theorem C4_counterexample :
    update_cmd.result [mkListed "10" "foo"] "bar" = update_cmd.LoopResult.noMatch
    ∧ update_cmd.prints "bar" [mkListed "10" "foo"] (HttpResp.okResp "") = []
    ∧ update_cmd.trace "a" "t" "g" "bar" [mkListed "10" "foo"]
      = [getReq (guildCommandsUrl "a" "g") "t"] :=
  ⟨rfl, rfl, rfl⟩

/-- C4 amended: when no fetched command carries the target name,
update_cmd.py issues no PATCH (its only request is the list GET, so no
mutating request alters any command and the list is left unchanged) and
terminates silently — the loop falls through with no NotFoundError and
nothing printed. -/
theorem C4_amended_unknown_name_silent (app token guild_id cmd_name : String)
    (jbody : List Command) (resp : HttpResp)
    (h : ∀ c ∈ jbody, c.payload.name ≠ cmd_name) :
    update_cmd.trace app token guild_id cmd_name jbody
      = [getReq (guildCommandsUrl app guild_id) token]
    ∧ update_cmd.result jbody cmd_name = update_cmd.LoopResult.noMatch
    ∧ update_cmd.prints cmd_name jbody resp = []
    ∧ (update_cmd.trace app token guild_id cmd_name jbody).all
        (fun r => !(isMutation r)) = true := by
  have hf : jbody.find? (fun c => c.payload.name == cmd_name) = Option.none := by
    rw [List.find?_eq_none]
    intro c hc
    simpa using h c hc
  refine ⟨?_, ?_, ?_, ?_⟩
  · simp [update_cmd.trace, hf, getReq]
  · simp [update_cmd.result, hf]
  · simp [update_cmd.prints, hf]
  · simp [update_cmd.trace, hf, isMutation, getReq]

/-- C4 witness: the amended statement at a concrete input — one fetched
command named "qux", target name "baz". -/
theorem C4_amended_unknown_name_silent_witness :
    update_cmd.trace "a" "t" "g" "baz" [mkListed "7" "qux"]
      = [getReq (guildCommandsUrl "a" "g") "t"]
    ∧ update_cmd.result [mkListed "7" "qux"] "baz" = update_cmd.LoopResult.noMatch
    ∧ update_cmd.prints "baz" [mkListed "7" "qux"] (HttpResp.okResp "") = []
    ∧ (update_cmd.trace "a" "t" "g" "baz" [mkListed "7" "qux"]).all
        (fun r => !(isMutation r)) = true :=
  C4_amended_unknown_name_silent "a" "t" "g" "baz" [mkListed "7" "qux"]
    (HttpResp.okResp "") (by decide)

/-- C10: in delete_all_commands.py and cleanup.py, the mutating
requests of a run are exactly one DELETE per fetched command, in list
order, on the per-command url built from each command's id; the count
printed for each scope is the length of that scope's fetched list; and
requests and prints alike are independent of the DELETE responses,
which are discarded without inspection. -/
theorem C10_one_delete_per_listed_command (app guild token : String)
    (gbody gldbody : List Command) (gr gldr gr2 gldr2 : Nat → HttpResp) :
    ((delete_all_commands.run app guild token gbody gldbody gr gldr).1.filter isMutation)
      = gbody.map (mkDelete (globalCommandsUrl app) token)
          ++ gldbody.map (mkDelete (guildCommandsUrl app guild) token)
    ∧ ((cleanup.run app guild token gbody gldbody gr gldr).1.filter isMutation)
      = gbody.map (mkDelete (globalCommandsUrl app) token)
          ++ gldbody.map (mkDelete (guildCommandsUrl app guild) token)
    ∧ (delete_all_commands.run app guild token gbody gldbody gr gldr).2.head?
      = some ("Number of global commands: " ++ toString gbody.length)
    ∧ ((delete_all_commands.run app guild token gbody gldbody gr gldr).2.drop
        (gbody.length + 1)).head?
      = some ("Number of guilds commands: " ++ toString gldbody.length)
    ∧ delete_all_commands.run app guild token gbody gldbody gr gldr
      = delete_all_commands.run app guild token gbody gldbody gr2 gldr2
    ∧ cleanup.run app guild token gbody gldbody gr gldr
      = cleanup.run app guild token gbody gldbody gr2 gldr2 := by
  refine ⟨?_, ?_, ?_, ?_, ?_, ?_⟩
  · simp [delete_all_commands.run, delete_all_commands_deleteLoop_eq, getReq,
      List.filter_append, filter_mkDelete, isMutation]
  · simp [cleanup.run, cleanup_deleteLoop_eq, getReq,
      List.filter_append, filter_mkDelete, isMutation]
  · simp [delete_all_commands.run, delete_all_commands_deleteLoop_eq]
  · simp [delete_all_commands.run, delete_all_commands_deleteLoop_eq,
      List.drop_append_eq_append_drop]
  · simp [delete_all_commands.run, delete_all_commands_deleteLoop_eq]
  · simp [cleanup.run, cleanup_deleteLoop_eq]

end LSDC2
